import Mathlib

/-!
Verification development for the natural-language users query pipeline
(`agents/shared/schemas.py`, `agents/tools/user_query_tools.py`,
`app/services/users_nl_query_service.py`, `app/api/v1/routes/agents.py`).

The Python code is shallowly embedded: pydantic models become structures
plus explicit validation functions, the async tool and service methods
become pure functions over an explicit collaborator record, `json.loads`
is modelled by a small total JSON parser, and raised exceptions become
`Except.error`.
-/

set_option maxRecDepth 4000
set_option maxHeartbeats 2000000

namespace NlQuery

/-- JSON values as produced by `json.loads` / consumed by pydantic.
Numbers are modelled as integers (no claim involves JSON floats). -/
inductive JValue where
  | null : JValue
  | bool : Bool → JValue
  | int : Int → JValue
  | str : String → JValue
  | arr : List JValue → JValue
  | obj : List (String × JValue) → JValue

/-- Named character constants, so punctuation never appears as a literal. -/
def quoteC : Char := Char.ofNat 34
def bslashC : Char := Char.ofNat 92
def braceOC : Char := Char.ofNat 123
def braceCC : Char := Char.ofNat 125
def brackOC : Char := Char.ofNat 91
def brackCC : Char := Char.ofNat 93
def colonC : Char := Char.ofNat 58
def commaC : Char := Char.ofNat 44
def minusC : Char := Char.ofNat 45
def tickC : Char := Char.ofNat 96
def nlC : Char := Char.ofNat 10
def tabC : Char := Char.ofNat 9
def crC : Char := Char.ofNat 13
def spaceC : Char := Char.ofNat 32

def isJsonWs (c : Char) : Bool :=
  c = spaceC || c = nlC || c = tabC || c = crC

def skipWs (cs : List Char) : List Char := cs.dropWhile isJsonWs

/-- Parse the body of a JSON string after the opening quote; handles the
common escapes (`json.loads` accepts more, but no theorem input uses them). -/
def parseStringBody : List Char → Option (String × List Char)
  | [] => none
  | c :: rest =>
    if c = quoteC then some ("", rest)
    else if c = bslashC then
      match rest with
      | [] => none
      | e :: rest' =>
        let esc : Option Char :=
          if e = quoteC then some quoteC
          else if e = bslashC then some bslashC
          else if e = 'n' then some nlC
          else if e = 't' then some tabC
          else if e = 'r' then some crC
          else if e = Char.ofNat 47 then some (Char.ofNat 47)
          else none
        match esc with
        | none => none
        | some ec =>
          match parseStringBody rest' with
          | none => none
          | some (s, r) => some (⟨ec :: s.toList⟩, r)
    else
      match parseStringBody rest with
      | none => none
      | some (s, r) => some (⟨c :: s.toList⟩, r)

def digitsToNat (acc : Nat) : List Char → Nat × List Char
  | [] => (acc, [])
  | c :: rest =>
    if c.isDigit then digitsToNat (acc * 10 + (c.toNat - 48)) rest
    else (acc, c :: rest)

/-- Parse an integer literal (optional leading minus, at least one digit). -/
def parseIntLit (cs : List Char) : Option (Int × List Char) :=
  match cs with
  | [] => none
  | c :: rest =>
    if c = minusC then
      match rest with
      | [] => none
      | d :: _ =>
        if d.isDigit then
          let (n, r) := digitsToNat 0 rest
          some (-(n : Int), r)
        else none
    else if c.isDigit then
      let (n, r) := digitsToNat 0 cs
      some ((n : Int), r)
    else none

mutual

/-- Fuel-indexed recursive-descent JSON parser, modelling `json.loads`. -/
def parseJ : Nat → List Char → Option (JValue × List Char)
  | 0, _ => none
  | Nat.succ fuel, cs =>
    let cs := skipWs cs
    match cs with
    | [] => none
    | c :: rest =>
      if c = quoteC then
        match parseStringBody rest with
        | none => none
        | some (s, r) => some (JValue.str s, r)
      else if c = braceOC then
        let r0 := skipWs rest
        match r0 with
        | [] => none
        | c2 :: rest2 =>
          if c2 = braceCC then some (JValue.obj [], rest2)
          else
            match parseObjFields fuel r0 with
            | none => none
            | some (fs, r) => some (JValue.obj fs, r)
      else if c = brackOC then
        let r0 := skipWs rest
        match r0 with
        | [] => none
        | c2 :: rest2 =>
          if c2 = brackCC then some (JValue.arr [], rest2)
          else
            match parseArrElems fuel r0 with
            | none => none
            | some (xs, r) => some (JValue.arr xs, r)
      else if c = 'n' then
        match cs with
        | 'n' :: 'u' :: 'l' :: 'l' :: r => some (JValue.null, r)
        | _ => none
      else if c = 't' then
        match cs with
        | 't' :: 'r' :: 'u' :: 'e' :: r => some (JValue.bool true, r)
        | _ => none
      else if c = 'f' then
        match cs with
        | 'f' :: 'a' :: 'l' :: 's' :: 'e' :: r => some (JValue.bool false, r)
        | _ => none
      else
        match parseIntLit cs with
        | none => none
        | some (n, r) => some (JValue.int n, r)

/-- Comma-separated array elements, up to the closing bracket. -/
def parseArrElems : Nat → List Char → Option (List JValue × List Char)
  | 0, _ => none
  | Nat.succ fuel, cs =>
    match parseJ fuel cs with
    | none => none
    | some (v, r) =>
      let r := skipWs r
      match r with
      | [] => none
      | c :: rest =>
        if c = commaC then
          match parseArrElems fuel rest with
          | none => none
          | some (xs, r') => some (v :: xs, r')
        else if c = brackCC then some ([v], rest)
        else none

/-- Comma-separated object members, up to the closing brace. -/
def parseObjFields : Nat → List Char → Option (List (String × JValue) × List Char)
  | 0, _ => none
  | Nat.succ fuel, cs =>
    let cs := skipWs cs
    match cs with
    | [] => none
    | c :: rest =>
      if c = quoteC then
        match parseStringBody rest with
        | none => none
        | some (k, r) =>
          let r := skipWs r
          match r with
          | [] => none
          | c2 :: rest2 =>
            if c2 = colonC then
              match parseJ fuel rest2 with
              | none => none
              | some (v, r') =>
                let r' := skipWs r'
                match r' with
                | [] => none
                | c3 :: rest3 =>
                  if c3 = commaC then
                    match parseObjFields fuel rest3 with
                    | none => none
                    | some (fs, r'') => some ((k, v) :: fs, r'')
                  else if c3 = braceCC then some ([(k, v)], rest3)
                  else none
            else none
      else none

end

/-- Model of Python `json.loads`: `none` where `json.loads` raises
`ValueError` (including trailing garbage), `some v` otherwise. -/
def jsonLoads (s : String) : Option JValue :=
  match parseJ (s.length + 1) s.toList with
  | none => none
  | some (v, rest) => if (skipWs rest).isEmpty then some v else none

/-- First-match lookup in a JSON object / keyword dictionary. -/
def jGet (d : List (String × JValue)) (k : String) : Option JValue :=
  (d.find? (fun kv => kv.1 = k)).map Prod.snd

/-- Insert with override, modelling Python dict update semantics
(`plan["limit"] = limit`, `{**filters, ...}`). -/
def jSet (d : List (String × JValue)) (k : String) (v : JValue) : List (String × JValue) :=
  (d.filter (fun kv => kv.1 ≠ k)) ++ [(k, v)]

/-- The persisted `User` entity (`app/models/entities/user.py`): note the
`password` column, stored in plain text. Datetimes are opaque strings. -/
structure User where
  id : Int
  email : String
  username : String
  password : String
  first_name : String
  last_name : String
  is_active : Bool
  created_at : String
  updated_at : String
  deriving Repr, DecidableEq

/-- `UserPublic` (`agents/shared/schemas.py`): the sanitized projection. -/
structure UserPublic where
  id : Int
  email : String
  username : String
  first_name : String
  last_name : String
  is_active : Bool
  created_at : String
  updated_at : String
  deriving Repr, DecidableEq

/-- `UserPublic.model_validate(user)` with `from_attributes=True`:
copies exactly the declared fields off the entity, dropping `password`. -/
def userPublicOfUser (u : User) : UserPublic :=
  { id := u.id, email := u.email, username := u.username,
    first_name := u.first_name, last_name := u.last_name,
    is_active := u.is_active, created_at := u.created_at,
    updated_at := u.updated_at }

/-- `UserPublic.model_dump(mode="json")`: the exact key set serialized. -/
def UserPublic.toFields (p : UserPublic) : List (String × JValue) :=
  [("id", JValue.int p.id), ("email", JValue.str p.email),
   ("username", JValue.str p.username), ("first_name", JValue.str p.first_name),
   ("last_name", JValue.str p.last_name), ("is_active", JValue.bool p.is_active),
   ("created_at", JValue.str p.created_at), ("updated_at", JValue.str p.updated_at)]

/-- The closed intent set of `UsersQueryResult.intent`. -/
inductive Intent where
  | get_user_by_id
  | get_user_by_email
  | get_user_by_username
  | list_users
  | list_active_users
  | clarification_needed
  | out_of_scope
  deriving Repr, DecidableEq

/-- The four admissible `lookup_type` literals. -/
inductive LookupType where
  | id
  | email
  | username
  | list
  deriving Repr, DecidableEq

/-- Validated `UsersQueryToolInput` (`agents/shared/schemas.py`). -/
structure UsersQueryToolInput where
  lookup_type : LookupType
  user_id : Option Int
  email : Option String
  username : Option String
  active_only : Bool
  skip : Int
  limit : Int
  deriving Repr, DecidableEq

/-- Split a character list on a separator (like `str.split(sep)`). -/
def splitOnChar (sep : Char) : List Char → List (List Char)
  | [] => [[]]
  | x :: xs =>
    match splitOnChar sep xs with
    | [] => [[]]
    | h :: t => if x = sep then [] :: h :: t else (x :: h) :: t

/-- Python whitespace for `str.strip`. -/
def isPyWs (c : Char) : Bool :=
  isJsonWs c || c = Char.ofNat 11 || c = Char.ofNat 12

/-- Python `str.strip()`. -/
def pyStrip (s : String) : String :=
  ⟨((s.toList.dropWhile isPyWs).reverse.dropWhile isPyWs).reverse⟩

/-- Simple model of pydantic `EmailStr` acceptance: one `@` separating a
non-empty local part from a dotted, non-empty domain. -/
def isValidEmail (s : String) : Bool :=
  match splitOnChar (Char.ofNat 64) s.toList with
  | [lp, dom] =>
    !lp.isEmpty && !dom.isEmpty &&
      (let parts := splitOnChar (Char.ofNat 46) dom
       decide (parts.length ≥ 2) && parts.all (fun p => !p.isEmpty))
  | _ => false

/-- `UsersQueryResult` (`agents/shared/schemas.py`), `extra="forbid"`. -/
structure UsersQueryResult where
  intent : Intent
  summary : String
  data : List UserPublic
  filters : List (String × JValue)
  count : Int
  error : Option String

/-- Pydantic construction of `UsersQueryToolInput` from the tool call
arguments: per-field constraint checks, then `validate_lookup_requirements`.
Values arrive as JSON values; a wrong shape is a field validation error. -/
def validateToolInput (lookup_type user_id email username active_only skip limit : JValue) :
    Except String UsersQueryToolInput := do
  let lt ← match lookup_type with
    | JValue.str "id" => Except.ok LookupType.id
    | JValue.str "email" => Except.ok LookupType.email
    | JValue.str "username" => Except.ok LookupType.username
    | JValue.str "list" => Except.ok LookupType.list
    | _ => Except.error "lookup_type must be one of id, email, username, list"
  let uid ← match user_id with
    | JValue.null => Except.ok (none : Option Int)
    | JValue.int n =>
      if 1 ≤ n then Except.ok (some n) else Except.error "user_id must be >= 1"
    | _ => Except.error "user_id must be an integer"
  let em ← match email with
    | JValue.null => Except.ok (none : Option String)
    | JValue.str s =>
      if isValidEmail s then Except.ok (some s) else Except.error "invalid email address"
    | _ => Except.error "email must be a string"
  let un ← match username with
    | JValue.null => Except.ok (none : Option String)
    | JValue.str s => Except.ok (some s)
    | _ => Except.error "username must be a string"
  let ao ← match active_only with
    | JValue.bool b => Except.ok b
    | _ => Except.error "active_only must be a boolean"
  let sk ← match skip with
    | JValue.int n =>
      if 0 ≤ n then Except.ok n else Except.error "skip must be >= 0"
    | _ => Except.error "skip must be an integer"
  let li ← match limit with
    | JValue.int n =>
      if 1 ≤ n ∧ n ≤ 100 then Except.ok n
      else Except.error "limit must be between 1 and 100"
    | _ => Except.error "limit must be an integer"
  -- validate_lookup_requirements (model_validator, mode="after")
  if lt = LookupType.id ∧ uid = none then
    Except.error "user_id is required when lookup_type=id"
  else if lt = LookupType.email ∧ em = none then
    Except.error "email is required when lookup_type=email"
  else if lt = LookupType.username ∧ (match un with
      | none => true
      | some s => (pyStrip s).isEmpty) = true then
    Except.error "username is required when lookup_type=username"
  else if lt ≠ LookupType.list ∧ (sk ≠ 0 ∨ li ≠ 20) then
    Except.error "skip/limit are only valid when lookup_type=list"
  else
    Except.ok { lookup_type := lt, user_id := uid, email := em, username := un,
                active_only := ao, skip := sk, limit := li }

/-- The user-data collaborator behind the Query Tool, at the exact call
boundary the tool uses. Service getters raise on not-found (`Except.error`);
the repository username getter returns an optional. -/
structure Collab where
  get_user_by_id : Int → Except String User
  get_user_by_email : String → Except String User
  get_by_username : String → Except String (Option User)
  get_all_users : Int → Int → Except String (List User)
  get_active_users : Int → Int → Except String (List User)

/-- The `clarification_needed` result built by the dispatch except-branch. -/
def couldNotComplete (e : String) : UsersQueryResult :=
  { intent := Intent.clarification_needed,
    summary := "I could not complete that query.",
    data := [], filters := [], count := 0, error := some e }

/-- The success result: sanitize every record, echo filters, set count. -/
def successResult (intent : Intent) (users : List User)
    (filters : List (String × JValue)) : UsersQueryResult :=
  let payload := users.map userPublicOfUser
  let n := payload.length
  { intent := intent, summary := s!"Found {n} user(s).",
    data := payload, filters := filters, count := (n : Int), error := none }

/-- The dispatch section of `query_users_tool` (the if/elif/else chain and
its surrounding try/except), on an already-validated input. -/
def dispatchTool (c : Collab) (inp : UsersQueryToolInput) : UsersQueryResult :=
  match inp.lookup_type, inp.user_id, inp.email, inp.username with
  | LookupType.id, some uid, _, _ =>
    (match c.get_user_by_id uid with
     | Except.error e => couldNotComplete e
     | Except.ok u =>
       successResult Intent.get_user_by_id [u] [("user_id", JValue.int uid)])
  | LookupType.email, _, some em, _ =>
    (match c.get_user_by_email em with
     | Except.error e => couldNotComplete e
     | Except.ok u =>
       successResult Intent.get_user_by_email [u] [("email", JValue.str em)])
  | LookupType.username, _, _, some un =>
    (match c.get_by_username un with
     | Except.error e => couldNotComplete e
     | Except.ok none =>
       { intent := Intent.get_user_by_username,
         summary := "No user found for that username.",
         data := [], filters := [("username", JValue.str un)],
         count := 0, error := none }
     | Except.ok (some u) =>
       successResult Intent.get_user_by_username [u] [("username", JValue.str un)])
  | _, _, _, _ =>
    let call := if inp.active_only then c.get_active_users inp.skip inp.limit
                else c.get_all_users inp.skip inp.limit
    let intent := if inp.active_only then Intent.list_active_users
                  else Intent.list_users
    (match call with
     | Except.error e => couldNotComplete e
     | Except.ok users =>
       successResult intent users
         [("active_only", JValue.bool inp.active_only),
          ("skip", JValue.int inp.skip), ("limit", JValue.int inp.limit)])

/-- `query_users_tool` (`agents/tools/user_query_tools.py`): coalesce `None`
for `active_only`/`skip`/`limit`, validate, then dispatch; a validation
failure short-circuits to `clarification_needed` without touching `c`. -/
def queryUsersTool (c : Collab)
    (lookup_type user_id email username active_only skip limit : JValue) :
    UsersQueryResult :=
  let ao := match active_only with | JValue.null => JValue.bool false | v => v
  let sk := match skip with | JValue.null => JValue.int 0 | v => v
  let li := match limit with | JValue.null => JValue.int 20 | v => v
  match validateToolInput lookup_type user_id email username ao sk li with
  | Except.error e =>
    { intent := Intent.clarification_needed,
      summary := "I need a bit more detail to run that users query.",
      data := [], filters := [], count := 0, error := some e }
  | Except.ok inp => dispatchTool c inp

/-- The Python parameter names of `query_users_tool`. -/
def toolParamNames : List String :=
  ["lookup_type", "user_id", "email", "username", "active_only", "skip", "limit"]

/-- `query_users_tool(**plan)`: keyword splatting. A key outside the
signature, or a missing `lookup_type`, is a `TypeError` raised at the call
site — before the tool body (and its try/except) runs. -/
def callQueryUsersToolKw (c : Collab) (plan : List (String × JValue)) :
    Except String UsersQueryResult :=
  if plan.any (fun kv => ¬ toolParamNames.contains kv.1) then
    Except.error "TypeError: unexpected keyword argument"
  else if (jGet plan "lookup_type").isNone then
    Except.error "TypeError: missing required argument lookup_type"
  else
    Except.ok (queryUsersTool c
      ((jGet plan "lookup_type").getD JValue.null)
      ((jGet plan "user_id").getD JValue.null)
      ((jGet plan "email").getD JValue.null)
      ((jGet plan "username").getD JValue.null)
      ((jGet plan "active_only").getD (JValue.bool false))
      ((jGet plan "skip").getD (JValue.int 0))
      ((jGet plan "limit").getD (JValue.int 20)))

/-- Decode an intent literal, as pydantic does for the `Literal` field. -/
def intentOfString (s : String) : Option Intent :=
  if s = "get_user_by_id" then some Intent.get_user_by_id
  else if s = "get_user_by_email" then some Intent.get_user_by_email
  else if s = "get_user_by_username" then some Intent.get_user_by_username
  else if s = "list_users" then some Intent.list_users
  else if s = "list_active_users" then some Intent.list_active_users
  else if s = "clarification_needed" then some Intent.clarification_needed
  else if s = "out_of_scope" then some Intent.out_of_scope
  else none

/-- `UserPublic.model_validate` on a JSON value (all fields required). -/
def validateUserPublic (v : JValue) : Except String UserPublic :=
  match v with
  | JValue.obj d => do
    let idv ← match jGet d "id" with
      | some (JValue.int n) => Except.ok n
      | _ => Except.error "id must be an integer"
    let em ← match jGet d "email" with
      | some (JValue.str s) =>
        if isValidEmail s then Except.ok s else Except.error "invalid email address"
      | _ => Except.error "email must be a string"
    let un ← match jGet d "username" with
      | some (JValue.str s) => Except.ok s
      | _ => Except.error "username must be a string"
    let fn ← match jGet d "first_name" with
      | some (JValue.str s) => Except.ok s
      | _ => Except.error "first_name must be a string"
    let ln ← match jGet d "last_name" with
      | some (JValue.str s) => Except.ok s
      | _ => Except.error "last_name must be a string"
    let ia ← match jGet d "is_active" with
      | some (JValue.bool b) => Except.ok b
      | _ => Except.error "is_active must be a boolean"
    let ca ← match jGet d "created_at" with
      | some (JValue.str s) => Except.ok s
      | _ => Except.error "created_at must be a datetime string"
    let ua ← match jGet d "updated_at" with
      | some (JValue.str s) => Except.ok s
      | _ => Except.error "updated_at must be a datetime string"
    Except.ok { id := idv, email := em, username := un, first_name := fn,
                last_name := ln, is_active := ia, created_at := ca, updated_at := ua }
  | _ => Except.error "UserPublic expects an object"

/-- The closed key set of `UsersQueryResult` (`extra="forbid"`). -/
def resultFieldNames : List String :=
  ["intent", "summary", "data", "filters", "count", "error"]

/-- `UsersQueryResult.model_validate` on a JSON value: unknown keys are a
construction error; `intent` and `summary` are required; the rest default. -/
def validateQueryResult (v : JValue) : Except String UsersQueryResult :=
  match v with
  | JValue.obj d =>
    if d.any (fun kv => ¬ resultFieldNames.contains kv.1) then
      Except.error "extra fields not permitted"
    else do
      let it ← match jGet d "intent" with
        | some (JValue.str s) =>
          (match intentOfString s with
           | some i => Except.ok i
           | none => Except.error "intent must be one of the allowed literals")
        | _ => Except.error "intent is required"
      let sm ← match jGet d "summary" with
        | some (JValue.str s) => Except.ok s
        | _ => Except.error "summary is required"
      let dt ← match jGet d "data" with
        | none => Except.ok ([] : List UserPublic)
        | some (JValue.arr xs) => xs.mapM validateUserPublic
        | some _ => Except.error "data must be a list"
      let fl ← match jGet d "filters" with
        | none => Except.ok ([] : List (String × JValue))
        | some (JValue.obj f) => Except.ok f
        | some _ => Except.error "filters must be an object"
      let ct ← match jGet d "count" with
        | none => Except.ok (0 : Int)
        | some (JValue.int n) => Except.ok n
        | some _ => Except.error "count must be an integer"
      let er ← match jGet d "error" with
        | none => Except.ok (none : Option String)
        | some JValue.null => Except.ok none
        | some (JValue.str s) => Except.ok (some s)
        | some _ => Except.error "error must be a string or null"
      Except.ok { intent := it, summary := sm, data := dt, filters := fl,
                  count := ct, error := er }
  | _ => Except.error "UsersQueryResult expects an object"

/-! ### The fenced-code-block regex of `_parse_json_content`

The source pattern is the raw string
`` r"```(?:json)?\\s*(\{.*?\})\\s*```" ``; inside a raw string `\\s`
denotes regex `\\` followed by `s`, i.e. a literal backslash character and
then zero or more letters `s` — not whitespace. The matcher below embeds
exactly that pattern (with `re.DOTALL`, so `.` matches newlines too). -/

/-- Greedy run of the letter `s` (regex `s*`). -/
def dropSRun (cs : List Char) : List Char := cs.dropWhile (fun c => c = 's')

/-- Does the tail match `\\ s* ``` ` (the closing part of the pattern)? -/
def closeMatches (cs : List Char) : Bool :=
  match cs with
  | c :: rest =>
    c = bslashC &&
      (match dropSRun rest with
       | t1 :: t2 :: t3 :: _ => t1 = tickC && t2 = tickC && t3 = tickC
       | _ => false)
  | [] => false

/-- Lazy `.*?` up to the first `}` whose continuation matches the closing
part; returns the inner characters. -/
def scanBody (inner : List Char) : List Char → Option (List Char)
  | [] => none
  | c :: rest =>
    if c = braceCC && closeMatches rest then some inner.reverse
    else scanBody (c :: inner) rest

/-- After the fence opener (and optional `json`): a literal backslash,
`s*`, then the captured brace group. -/
def tryAfterBackslash (cs : List Char) : Option String :=
  match cs with
  | c :: rest =>
    if c = bslashC then
      match dropSRun rest with
      | b :: body =>
        if b = braceOC then
          (scanBody [] body).map (fun inner => ⟨braceOC :: (inner ++ [braceCC])⟩)
        else none
      | [] => none
    else none
  | [] => none

/-- Try the whole pattern anchored at the current position. -/
def tryMatchAt (cs : List Char) : Option String :=
  match cs with
  | a :: b :: c :: rest =>
    if a = tickC && b = tickC && c = tickC then
      match rest with
      | 'j' :: 's' :: 'o' :: 'n' :: rest' =>
        ((tryAfterBackslash rest').orElse (fun _ => tryAfterBackslash rest))
      | _ => tryAfterBackslash rest
    else none
  | _ => none

/-- `re.search` of the fenced pattern: leftmost match wins. -/
def reSearchFenced : List Char → Option String
  | [] => none
  | c :: rest =>
    match tryMatchAt (c :: rest) with
    | some g => some g
    | none => reSearchFenced rest

/-- `_parse_json_content`: direct parse first (must yield a dict), else the
fenced-block extraction and reparse, else `None`. -/
def parseJsonContent (content : String) : Option (List (String × JValue)) :=
  let stripped := pyStrip content
  match jsonLoads stripped with
  | some (JValue.obj d) => some d
  | _ =>
    match reSearchFenced stripped.toList with
    | some g =>
      (match jsonLoads g with
       | some (JValue.obj d) => some d
       | _ => none)
    | none => none

/-- Does `p` occur as a contiguous sublist? -/
def listInfix (p : List Char) : List Char → Bool
  | [] => p.isEmpty
  | c :: rest => p.isPrefixOf (c :: rest) || listInfix p rest

/-- Substring scan (`pat in s`) used by the free-text classifier. -/
def strContainsSub (s pat : String) : Bool :=
  listInfix pat.toList s.toList

/-- Python `str.lower` (ASCII suffices for the scanned keywords). -/
def strLower (s : String) : String := ⟨s.toList.map Char.toLower⟩

/-- `_result_from_text`: the heuristic free-text classifier. -/
def resultFromText (text : String) (limit : Option Int) : UsersQueryResult :=
  let lowered := strLower text
  let intent :=
    if strContainsSub lowered "out_of_scope" || strContainsSub lowered "out of scope" then
      Intent.out_of_scope
    else if strContainsSub lowered "clarification" || strContainsSub lowered "more detail" then
      Intent.clarification_needed
    else
      Intent.clarification_needed
  { intent := intent, summary := text, data := [],
    filters := match limit with
      | some l => [("limit", JValue.int l)]
      | none => [],
    count := 0, error := none }

/-- Python `a or b` on optional strings (empty string is falsy). -/
def pyOrStr (a b : Option String) : Option String :=
  match a with
  | some s => if s = "" then b else some s
  | none => b

/-- `_ensure_google_api_key`: missing, empty, or placeholder key is a
fatal `RuntimeError` (the env-var write side effect is not modelled). -/
def ensureGoogleApiKey (settingsKey envKey : Option String) : Except String Unit :=
  match pyOrStr settingsKey envKey with
  | none => Except.error "GOOGLE_API_KEY is required for users NL query endpoint"
  | some k =>
    if k = "" ∨ k = "your-google-api-key-here" then
      Except.error "GOOGLE_API_KEY is required for users NL query endpoint"
    else Except.ok ()

/-- `_ensure_openrouter_api_key`: missing or empty key is a fatal
`RuntimeError`; otherwise the key is returned. -/
def ensureOpenrouterApiKey (settingsKey envKey : Option String) : Except String String :=
  match pyOrStr settingsKey envKey with
  | none => Except.error "OPENROUTER_API_KEY is required when provider=openrouter"
  | some k =>
    if k = "" then Except.error "OPENROUTER_API_KEY is required when provider=openrouter"
    else Except.ok k

/-- One part of an agent-runtime event: optional text fragment and optional
structured function response (used only when the response is a dict). -/
structure EventPart where
  text : Option String
  function_response : Option JValue

/-- Event content: a possibly empty list of parts. -/
structure EventContent where
  parts : List EventPart

/-- One event of the agent run stream. -/
structure Event where
  content : Option EventContent

/-- One iteration of the event loop in `_query_users_google`: update the
latest non-empty joined text and the latest dict-shaped tool payload. -/
def stepEvent (acc : String × Option (List (String × JValue))) (ev : Event) :
    String × Option (List (String × JValue)) :=
  match ev.content with
  | none => acc
  | some c =>
    if c.parts.isEmpty then acc
    else
      let texts := c.parts.filterMap (fun p =>
        match p.text with
        | some t => if t = "" then none else some t
        | none => none)
      let latest := if texts.isEmpty then acc.1 else String.join texts
      let payload := c.parts.foldl (fun tp p =>
        match p.function_response with
        | some (JValue.obj d) => some d
        | _ => tp) acc.2
      (latest, payload)

/-- `_query_users_google`: credential check, ordered event consumption,
then tool-payload validation / free-text fallback / canned clarification.
`Except.error` marks an exception propagating out of the strategy. -/
def queryUsersGoogle (settingsKey envKey : Option String) (events : List Event)
    (limit : Option Int) : Except String UsersQueryResult :=
  match ensureGoogleApiKey settingsKey envKey with
  | Except.error e => Except.error e
  | Except.ok _ =>
    let acc := events.foldl stepEvent ("", none)
    match acc.2 with
    | some d =>
      (match validateQueryResult (JValue.obj d) with
       | Except.error e => Except.error e
       | Except.ok r =>
         if r.summary = "" ∧ acc.1 ≠ "" then
           Except.ok { r with summary := acc.1 }
         else Except.ok r)
    | none =>
      if acc.1 ≠ "" then Except.ok (resultFromText acc.1 limit)
      else Except.ok
        { intent := Intent.clarification_needed,
          summary := "I could not produce a query result.",
          data := [], filters := [], count := 0,
          error := some "No tool output received from agent run." }

/-- The outcome of the one HTTP POST to the chat-completion endpoint. -/
structure HttpResponse where
  status_code : Int
  text : String

/-- `payload["choices"][0]["message"]["content"]`; `none` stands for the
caught `KeyError`/`IndexError`/`TypeError` shapes. -/
def extractContent (payload : JValue) : Option JValue :=
  match payload with
  | JValue.obj d =>
    (match jGet d "choices" with
     | some (JValue.arr (c0 :: _)) =>
       (match c0 with
        | JValue.obj m =>
          (match jGet m "message" with
           | some (JValue.obj mm) => jGet mm "content"
           | _ => none)
        | _ => none)
     | _ => none)
  | _ => none

/-- A clarification result with the given summary and error text. -/
def clarifResult (summary err : String) : UsersQueryResult :=
  { intent := Intent.clarification_needed, summary := summary,
    data := [], filters := [], count := 0, error := some err }

/-- `_build_openrouter_plan` after the HTTP call: either a plan dict
(`Sum.inl`) or an already-structured result (`Sum.inr`); `Except.error`
marks the uncaught `AttributeError` when the message content is not a
string (`content.strip()` on a non-string). -/
def buildOpenrouterPlan (response : HttpResponse) :
    Except String (Sum (List (String × JValue)) UsersQueryResult) :=
  if response.status_code ≥ 400 then
    let code := response.status_code
    let body := response.text.take 200
    Except.ok (Sum.inr (clarifResult "OpenRouter request failed." s!"HTTP {code}: {body}"))
  else
    match jsonLoads response.text with
    | none =>
      Except.ok (Sum.inr (clarifResult "OpenRouter returned an invalid response."
        "response body is not valid JSON"))
    | some payload =>
      match extractContent payload with
      | none =>
        Except.ok (Sum.inr (clarifResult "OpenRouter returned an invalid response."
          "missing choices/message/content"))
      | some (JValue.str content) =>
        (match parseJsonContent content with
         | none =>
           Except.ok (Sum.inr (clarifResult "Could not parse OpenRouter response."
             "Expected JSON object in model output."))
         | some parsed =>
           if (jGet parsed "intent").isSome then
             (match validateQueryResult (JValue.obj parsed) with
              | Except.ok r => Except.ok (Sum.inr r)
              | Except.error e =>
                Except.ok (Sum.inr (clarifResult
                  "Invalid structured response from OpenRouter." e)))
           else Except.ok (Sum.inl parsed))
      | some _ => Except.error "AttributeError: content is not a string"

/-- `_query_users_openrouter`: credential check, plan building, optional
limit injection, then the keyword call into the Query Tool. -/
def queryUsersOpenrouter (settingsKey envKey : Option String)
    (response : HttpResponse) (c : Collab) (limit : Option Int) :
    Except String UsersQueryResult :=
  match ensureOpenrouterApiKey settingsKey envKey with
  | Except.error e => Except.error e
  | Except.ok _ =>
    match buildOpenrouterPlan response with
    | Except.error e => Except.error e
    | Except.ok (Sum.inr r) => Except.ok r
    | Except.ok (Sum.inl plan) =>
      let plan2 := match limit with
        | some l => if (jGet plan "limit").isNone then jSet plan "limit" (JValue.int l) else plan
        | none => plan
      callQueryUsersToolKw c plan2

/-- The caller-supplied provider flag. -/
inductive Provider where
  | google
  | openrouter
  deriving Repr, DecidableEq

def providerStr : Provider → String
  | Provider.google => "google"
  | Provider.openrouter => "openrouter"

/-- `UsersNlQueryRequest` (`app/api/v1/schemas/agent_schemas.py`). -/
structure UsersNlQueryRequest where
  query : String
  limit : Option Int
  provider : Provider

/-- The route handler `query_users_natural_language`
(`app/api/v1/routes/agents.py`). The strategy stands for
`query_service.query_users`; the two configured limits stand for
`settings.users_nl_default_limit` / `settings.users_nl_max_limit`
(modelled from the spec: these settings fields are consumed by the route
but not declared in `app/config/settings.py`; per spec section 6 the
configuration supplies a default result-page limit and a hard ceiling).
`Except.error` is the HTTP 500 conversion. -/
def routeQueryUsers (users_nl_default_limit users_nl_max_limit : Int)
    (strategy : String → Int → Provider → Except String UsersQueryResult)
    (payload : UsersNlQueryRequest) : Except String UsersQueryResult :=
  let requested_limit := payload.limit.getD users_nl_default_limit
  let limit := min requested_limit users_nl_max_limit
  match strategy payload.query limit payload.provider with
  | Except.error e => Except.error e
  | Except.ok result =>
    Except.ok { result with
      filters := jSet (jSet result.filters "limit" (JValue.int limit))
        "provider" (JValue.str (providerStr payload.provider)) }

/-! ### Concrete fixtures used by witnesses and counterexamples -/

/-- A persisted user record (with its password column populated). -/
def userA : User :=
  { id := 1, email := "test@example.com", username := "testuser",
    password := "Password123!", first_name := "Test", last_name := "User",
    is_active := true, created_at := "2024-01-01T00:00:00",
    updated_at := "2024-01-01T00:00:00" }

/-- A collaborator: one user everywhere, username lookups find nobody,
id lookups raise not-found, email lookups succeed. -/
def collabFix : Collab :=
  { get_user_by_id := fun _ => Except.error "User not found: id=99",
    get_user_by_email := fun _ => Except.ok userA,
    get_by_username := fun _ => Except.ok none,
    get_all_users := fun _ _ => Except.ok [userA],
    get_active_users := fun _ _ => Except.ok [userA] }

/-- A collaborator whose email lookups also raise not-found. -/
def collabFailFix : Collab :=
  { get_user_by_id := fun _ => Except.error "User not found: id=99",
    get_user_by_email := fun _ => Except.error "User not found: email",
    get_by_username := fun _ => Except.ok none,
    get_all_users := fun _ _ => Except.ok [userA],
    get_active_users := fun _ _ => Except.ok [userA] }

/-- A model reply whose fenced code block carries a JSON object — the shape
the spec says `_parse_json_content` extracts and reparses. -/
def fencedContent : String := "```json\n\x7b\"lookup_type\": \"list\"\x7d\n```"

/-- The JSON object inside `fencedContent`. -/
def fencedInner : String := "\x7b\"lookup_type\": \"list\"\x7d"

/-- A 200 chat-completion response whose message content is a JSON plan
with an extra key the tool signature does not accept. -/
def bogusPlanResponse : HttpResponse :=
  { status_code := 200,
    text := "\x7b\"choices\":[\x7b\"message\":\x7b\"content\":\"\x7b\\\"lookup_type\\\":\\\"id\\\",\\\"bogus\\\":1\x7d\"\x7d\x7d]\x7d" }

/-- A 200 chat-completion response whose message content is `fencedContent`. -/
def fencedResponse : HttpResponse :=
  { status_code := 200,
    text := "\x7b\"choices\":[\x7b\"message\":\x7b\"content\":\"```json\\n\x7b\\\"lookup_type\\\": \\\"list\\\"\x7d\\n```\"\x7d\x7d]\x7d" }

/-- An agent-run event carrying only the free text of the C8 scenario. -/
def outOfScopeEvent : Event :=
  { content := some { parts :=
      [{ text := some "This is out of scope.", function_response := none }] } }

/-! ### Shared lemmas -/

/-- Every record a `successResult` carries is a sanitized projection. -/
theorem mem_successResult_data {p : UserPublic} {i : Intent} {us : List User}
    {fs : List (String × JValue)} (h : p ∈ (successResult i us fs).data) :
    ∃ u : User, p = userPublicOfUser u := by
  simp only [successResult, List.mem_map] at h
  obtain ⟨u, _, hu⟩ := h
  exact ⟨u, hu.symm⟩

/-- Every record placed in `data` by the dispatch section is a sanitized
projection of a collaborator record. -/
theorem mem_dispatchTool_data {p : UserPublic} (c : Collab)
    (inp : UsersQueryToolInput) (h : p ∈ (dispatchTool c inp).data) :
    ∃ u : User, p = userPublicOfUser u := by
  unfold dispatchTool at h
  split at h
  · split at h
    all_goals first
      | simp [couldNotComplete] at h
      | exact mem_successResult_data h
  · split at h
    all_goals first
      | simp [couldNotComplete] at h
      | exact mem_successResult_data h
  · split at h
    all_goals first
      | simp [couldNotComplete] at h
      | simp at h
      | exact mem_successResult_data h
  · simp only [] at h
    by_cases hao : inp.active_only = true
    all_goals simp only [hao, if_true, if_false, Bool.false_eq_true] at h
    all_goals split at h
    all_goals first
      | simp [couldNotComplete] at h
      | exact mem_successResult_data h

/-- Every record placed in `data` by the whole tool is a sanitized
projection of a collaborator record. -/
theorem mem_queryUsersTool_data {p : UserPublic} (c : Collab)
    (lt uid em un ao sk li : JValue)
    (h : p ∈ (queryUsersTool c lt uid em un ao sk li).data) :
    ∃ u : User, p = userPublicOfUser u := by
  unfold queryUsersTool at h
  simp only [] at h
  split at h
  · simp at h
  · exact mem_dispatchTool_data _ _ h

/-- The serialized key set of any sanitized record. -/
theorem userPublic_toFields_keys (p : UserPublic) :
    (UserPublic.toFields p).map Prod.fst =
      ["id", "email", "username", "first_name", "last_name", "is_active",
       "created_at", "updated_at"] := rfl

/-! ### Claim theorems -/

/-- C1: every user record placed in the `data` field of a result by any
path of the Query Tool (dispatch on id, email, username, or list) is the
sanitized `UserPublic` projection of a collaborator record; its serialized
key set is exactly id, email, username, first_name, last_name, is_active,
created_at, updated_at, so no password or secret key ever appears. -/
theorem query_tool_data_is_sanitized_projection (c : Collab)
    (lt uid em un ao sk li : JValue) (p : UserPublic)
    (h : p ∈ (queryUsersTool c lt uid em un ao sk li).data) :
    (∃ u : User, p = userPublicOfUser u) ∧
      (UserPublic.toFields p).map Prod.fst =
        ["id", "email", "username", "first_name", "last_name", "is_active",
         "created_at", "updated_at"] ∧
      "password" ∉ (UserPublic.toFields p).map Prod.fst ∧
      "secret" ∉ (UserPublic.toFields p).map Prod.fst := by
  refine ⟨mem_queryUsersTool_data c lt uid em un ao sk li h, rfl, ?_, ?_⟩ <;>
    simp [UserPublic.toFields]

/-- Witness for C1: the email-lookup path at a concrete collaborator. -/
theorem query_tool_data_is_sanitized_projection_witness :
    (∃ u : User, userPublicOfUser userA = userPublicOfUser u) ∧
      (UserPublic.toFields (userPublicOfUser userA)).map Prod.fst =
        ["id", "email", "username", "first_name", "last_name", "is_active",
         "created_at", "updated_at"] ∧
      "password" ∉ (UserPublic.toFields (userPublicOfUser userA)).map Prod.fst ∧
      "secret" ∉ (UserPublic.toFields (userPublicOfUser userA)).map Prod.fst :=
  query_tool_data_is_sanitized_projection collabFix (JValue.str "email")
    JValue.null (JValue.str "test@example.com") JValue.null JValue.null
    JValue.null JValue.null (userPublicOfUser userA)
    (by
      have hd : (queryUsersTool collabFix (JValue.str "email") JValue.null
          (JValue.str "test@example.com") JValue.null JValue.null JValue.null
          JValue.null).data = [userPublicOfUser userA] := rfl
      rw [hd]
      exact List.mem_singleton_self _)

/-- C10: at the tool boundary, `None` for `active_only`, `skip`, `limit`
is coerced to the defaults (`False`, `0`, `20`) before validation, so a
call with all three `None` behaves identically to one with the defaults;
in particular `lookup_type="list"` with the three `None`s validates and
lists users rather than producing a validation error. -/
theorem query_tool_none_optionals_coerced (c : Collab) (lt uid em un : JValue) :
    queryUsersTool c lt uid em un JValue.null JValue.null JValue.null =
      queryUsersTool c lt uid em un (JValue.bool false) (JValue.int 0)
        (JValue.int 20) ∧
    (validateToolInput (JValue.str "list") JValue.null JValue.null JValue.null
        (JValue.bool false) (JValue.int 0) (JValue.int 20)).isOk = true ∧
    (queryUsersTool collabFix (JValue.str "list") JValue.null JValue.null
        JValue.null JValue.null JValue.null JValue.null).intent =
      Intent.list_users :=
  ⟨rfl, rfl, rfl⟩

/-- C2: the Query Tool's not-found behaviour is asymmetric. A username
lookup whose collaborator returns no match yields
`QueryResult(get_user_by_username, "No user found for that username.",
filters=(username), data=[], count=0)` with no error; an id or email
lookup whose collaborator raises not-found is caught and converted to
`clarification_needed` carrying the error message. -/
theorem query_tool_not_found_asymmetry (c : Collab) (un : String) (uid : Int)
    (em : String) (msgI msgE : String) :
    ((pyStrip un).isEmpty = false → c.get_by_username un = Except.ok none →
      queryUsersTool c (JValue.str "username") JValue.null JValue.null
          (JValue.str un) JValue.null JValue.null JValue.null =
        { intent := Intent.get_user_by_username,
          summary := "No user found for that username.",
          data := [], filters := [("username", JValue.str un)],
          count := 0, error := none }) ∧
    (1 ≤ uid → c.get_user_by_id uid = Except.error msgI →
      queryUsersTool c (JValue.str "id") (JValue.int uid) JValue.null
          JValue.null JValue.null JValue.null JValue.null =
        { intent := Intent.clarification_needed,
          summary := "I could not complete that query.",
          data := [], filters := [], count := 0, error := some msgI }) ∧
    (isValidEmail em = true → c.get_user_by_email em = Except.error msgE →
      queryUsersTool c (JValue.str "email") JValue.null (JValue.str em)
          JValue.null JValue.null JValue.null JValue.null =
        { intent := Intent.clarification_needed,
          summary := "I could not complete that query.",
          data := [], filters := [], count := 0, error := some msgE }) := by
  refine ⟨fun h1 h2 => ?_, fun h1 h2 => ?_, fun h1 h2 => ?_⟩
  · have hv : validateToolInput (JValue.str "username") JValue.null JValue.null
        (JValue.str un) (JValue.bool false) (JValue.int 0) (JValue.int 20) =
        Except.ok { lookup_type := LookupType.username, user_id := none,
                    email := none, username := some un, active_only := false,
                    skip := 0, limit := 20 } := by
      simp [validateToolInput, h1, Bind.bind, Except.bind]
    unfold queryUsersTool
    simp only []
    rw [hv]
    simp only [dispatchTool]
    rw [h2]
  · have hv : validateToolInput (JValue.str "id") (JValue.int uid) JValue.null
        JValue.null (JValue.bool false) (JValue.int 0) (JValue.int 20) =
        Except.ok { lookup_type := LookupType.id, user_id := some uid,
                    email := none, username := none, active_only := false,
                    skip := 0, limit := 20 } := by
      simp [validateToolInput, h1, Bind.bind, Except.bind]
    unfold queryUsersTool
    simp only []
    rw [hv]
    simp only [dispatchTool]
    rw [h2]
    simp [couldNotComplete]
  · have hv : validateToolInput (JValue.str "email") JValue.null (JValue.str em)
        JValue.null (JValue.bool false) (JValue.int 0) (JValue.int 20) =
        Except.ok { lookup_type := LookupType.email, user_id := none,
                    email := some em, username := none, active_only := false,
                    skip := 0, limit := 20 } := by
      simp [validateToolInput, h1, Bind.bind, Except.bind]
    unfold queryUsersTool
    simp only []
    rw [hv]
    simp only [dispatchTool]
    rw [h2]
    simp [couldNotComplete]

/-- Witness for C2 at a concrete collaborator: `ghost` finds nobody,
id 99 and the email lookup raise not-found. -/
theorem query_tool_not_found_asymmetry_witness :
    (queryUsersTool collabFailFix (JValue.str "username") JValue.null
        JValue.null (JValue.str "ghost") JValue.null JValue.null JValue.null =
      { intent := Intent.get_user_by_username,
        summary := "No user found for that username.",
        data := [], filters := [("username", JValue.str "ghost")],
        count := 0, error := none }) ∧
    (queryUsersTool collabFailFix (JValue.str "id") (JValue.int 99) JValue.null
        JValue.null JValue.null JValue.null JValue.null =
      { intent := Intent.clarification_needed,
        summary := "I could not complete that query.",
        data := [], filters := [], count := 0,
        error := some "User not found: id=99" }) ∧
    (queryUsersTool collabFailFix (JValue.str "email") JValue.null
        (JValue.str "test@example.com") JValue.null JValue.null JValue.null
        JValue.null =
      { intent := Intent.clarification_needed,
        summary := "I could not complete that query.",
        data := [], filters := [], count := 0,
        error := some "User not found: email" }) :=
  ⟨(query_tool_not_found_asymmetry collabFailFix "ghost" 99 "test@example.com"
      "User not found: id=99" "User not found: email").1 rfl rfl,
   (query_tool_not_found_asymmetry collabFailFix "ghost" 99 "test@example.com"
      "User not found: id=99" "User not found: email").2.1 (by decide) rfl,
   (query_tool_not_found_asymmetry collabFailFix "ghost" 99 "test@example.com"
      "User not found: id=99" "User not found: email").2.2 rfl rfl⟩

/-- A validated list request with the given page and flags. -/
def listInput (uidv : Option Int) (emv unv : Option String) (ao : Bool)
    (sk li : Int) : UsersQueryToolInput :=
  { lookup_type := LookupType.list, user_id := uidv, email := emv,
    username := unv, active_only := ao, skip := sk, limit := li }

/-- Count/length/bound facts for the error-or-success outcome of one
paged collaborator call. -/
theorem result_of_listcall (intent : Intent) (li : Int)
    (call : Except String (List User)) (fs : List (String × JValue))
    (hli : 1 ≤ li)
    (hb : ∀ us, call = Except.ok us → (us.length : Int) ≤ li) :
    (match call with
      | Except.error e => couldNotComplete e
      | Except.ok us => successResult intent us fs).count =
      ((match call with
      | Except.error e => couldNotComplete e
      | Except.ok us => successResult intent us fs).data.length : Int) ∧
    ((match call with
      | Except.error e => couldNotComplete e
      | Except.ok us => successResult intent us fs).data.length : Int) ≤ li := by
  rcases call with e | us
  · simp only [couldNotComplete]
    refine ⟨by simp, ?_⟩
    simp only [List.length_nil, Nat.cast_zero]
    omega
  · have hlen := hb us rfl
    simp only [successResult]
    refine ⟨by simp, ?_⟩
    simpa using hlen

/-- Dispatching any validated list request keeps `count` equal to the data
length and the data length within the requested limit. -/
theorem dispatch_list_bounds (c : Collab) (uidv : Option Int)
    (emv unv : Option String) (ao : Bool) (sk li : Int)
    (hli : 1 ≤ li)
    (hb1 : ∀ us, c.get_all_users sk li = Except.ok us → (us.length : Int) ≤ li)
    (hb2 : ∀ us, c.get_active_users sk li = Except.ok us → (us.length : Int) ≤ li) :
    (dispatchTool c (listInput uidv emv unv ao sk li)).count =
      ((dispatchTool c (listInput uidv emv unv ao sk li)).data.length : Int) ∧
    ((dispatchTool c (listInput uidv emv unv ao sk li)).data.length : Int) ≤ li := by
  cases uidv <;> cases emv <;> cases unv <;> cases ao <;>
    simp only [dispatchTool, listInput] <;>
    first
      | exact result_of_listcall Intent.list_users li _ _ hli hb1
      | exact result_of_listcall Intent.list_active_users li _ _ hli hb2

/-- `dispatch_list_bounds` plus the password-free key set. -/
theorem dispatch_list_closer (c : Collab) (uidv : Option Int)
    (emv unv : Option String) (ao : Bool) (sk li : Int)
    (hli : 1 ≤ li)
    (hb1 : ∀ us, c.get_all_users sk li = Except.ok us → (us.length : Int) ≤ li)
    (hb2 : ∀ us, c.get_active_users sk li = Except.ok us → (us.length : Int) ≤ li) :
    (dispatchTool c (listInput uidv emv unv ao sk li)).count =
      ((dispatchTool c (listInput uidv emv unv ao sk li)).data.length : Int) ∧
    ((dispatchTool c (listInput uidv emv unv ao sk li)).data.length : Int) ≤ li ∧
    ∀ p ∈ (dispatchTool c (listInput uidv emv unv ao sk li)).data,
      "password" ∉ (UserPublic.toFields p).map Prod.fst := by
  have hb := dispatch_list_bounds c uidv emv unv ao sk li hli hb1 hb2
  exact ⟨hb.1, hb.2, fun p _ => by simp [UserPublic.toFields]⟩

/-- C3: for every valid list request the Query Tool executes (assuming the
collaborator page calls return at most `limit` records), the result has
`count == len(data) <= limit` and every record in `data` is password-free. -/
theorem list_query_count_within_limit (c : Collab)
    (uid em un : JValue) (ao : Bool) (sk li : Int) (inp : UsersQueryToolInput)
    (hb1 : ∀ us, c.get_all_users sk li = Except.ok us → (us.length : Int) ≤ li)
    (hb2 : ∀ us, c.get_active_users sk li = Except.ok us → (us.length : Int) ≤ li)
    (hv : validateToolInput (JValue.str "list") uid em un (JValue.bool ao)
        (JValue.int sk) (JValue.int li) = Except.ok inp)
    (hs : (queryUsersTool c (JValue.str "list") uid em un (JValue.bool ao)
        (JValue.int sk) (JValue.int li)).intent = Intent.list_users ∨
      (queryUsersTool c (JValue.str "list") uid em un (JValue.bool ao)
        (JValue.int sk) (JValue.int li)).intent = Intent.list_active_users) :
    (queryUsersTool c (JValue.str "list") uid em un (JValue.bool ao)
        (JValue.int sk) (JValue.int li)).count =
      ((queryUsersTool c (JValue.str "list") uid em un (JValue.bool ao)
        (JValue.int sk) (JValue.int li)).data.length : Int) ∧
    ((queryUsersTool c (JValue.str "list") uid em un (JValue.bool ao)
        (JValue.int sk) (JValue.int li)).data.length : Int) ≤ inp.limit ∧
    ∀ p ∈ (queryUsersTool c (JValue.str "list") uid em un (JValue.bool ao)
        (JValue.int sk) (JValue.int li)).data,
      "password" ∉ (UserPublic.toFields p).map Prod.fst := by
  have heq : queryUsersTool c (JValue.str "list") uid em un (JValue.bool ao)
      (JValue.int sk) (JValue.int li) = dispatchTool c inp := by
    unfold queryUsersTool
    simp only []
    rw [hv]
  rw [heq]
  simp only [validateToolInput, Bind.bind, Except.bind] at hv
  iterate 12 (all_goals try split at hv)
  all_goals try (injection hv with h; subst h)
  all_goals first
    | exact absurd hv (by simp)
    | exact dispatch_list_closer c _ _ _ _ _ _ (by omega)
        (fun us hh => hb1 us hh) (fun us hh => hb2 us hh)

/-- Witness for C3: a default list request against a collaborator holding
one user. -/
theorem list_query_count_within_limit_witness :
    (queryUsersTool collabFix (JValue.str "list") JValue.null JValue.null
        JValue.null (JValue.bool false) (JValue.int 0) (JValue.int 20)).count =
      ((queryUsersTool collabFix (JValue.str "list") JValue.null JValue.null
        JValue.null (JValue.bool false) (JValue.int 0) (JValue.int 20)).data.length : Int) ∧
    ((queryUsersTool collabFix (JValue.str "list") JValue.null JValue.null
        JValue.null (JValue.bool false) (JValue.int 0) (JValue.int 20)).data.length : Int) ≤
      (listInput none none none false 0 20).limit ∧
    ∀ p ∈ (queryUsersTool collabFix (JValue.str "list") JValue.null JValue.null
        JValue.null (JValue.bool false) (JValue.int 0) (JValue.int 20)).data,
      "password" ∉ (UserPublic.toFields p).map Prod.fst :=
  list_query_count_within_limit collabFix JValue.null JValue.null JValue.null
    false 0 20 (listInput none none none false 0 20)
    (fun us h => by
      have h' : us = [userA] := (Except.ok.inj h).symm
      subst h'
      decide)
    (fun us h => by
      have h' : us = [userA] := (Except.ok.inj h).symm
      subst h'
      decide)
    rfl (Or.inl rfl)

/-- `find?` commutes with a filter that removes no match. -/
theorem find?_filter_of_imp {α : Type} (l : List α) (p q : α → Bool)
    (h : ∀ x, p x = true → q x = true) :
    (l.filter q).find? p = l.find? p := by
  induction l with
  | nil => rfl
  | cons hd tl ih =>
    by_cases hq : q hd
    · by_cases hp : p hd
      · simp [List.filter_cons, List.find?, hq, hp]
      · simp only [List.filter_cons, hq, if_true, List.find?_cons]
        simp only [hp]
        simpa [List.find?, hp] using ih
    · have hp : p hd = false := by
        by_contra hc
        exact hq (h hd (by simpa using hc))
      simp only [List.filter_cons, hq]
      rw [if_neg (by simp [hq])]
      rw [ih]
      simp [List.find?, hp]

/-- Looking up the key just set returns the new value. -/
theorem jGet_jSet_self (d : List (String × JValue)) (k : String) (v : JValue) :
    jGet (jSet d k v) k = some v := by
  unfold jGet jSet
  rw [List.find?_append]
  have hnone : (d.filter (fun kv => kv.1 ≠ k)).find?
      (fun kv => kv.1 = k) = none := by
    rw [List.find?_eq_none]
    intro x hx
    have := List.of_mem_filter hx
    simpa using this
  simp [hnone, List.find?]

/-- Setting one key leaves lookups of other keys unchanged. -/
theorem jGet_jSet_ne (d : List (String × JValue)) (k k' : String) (v : JValue)
    (h : k ≠ k') : jGet (jSet d k' v) k = jGet d k := by
  unfold jGet jSet
  rw [List.find?_append]
  rw [find?_filter_of_imp d _ _ (fun x hx => by
    simp only [decide_eq_true_eq] at hx
    simpa [hx] using h)]
  rcases hfind : d.find? (fun kv => decide (kv.1 = k)) with _ | kv
  · simp [hfind, List.find?, Ne.symm h]
  · simp [hfind]

/-- C9: the route computes the effective limit as the minimum of the
caller-supplied limit (or the configured default) and the configured hard
ceiling, hands it to the strategy, and once the strategy returns it echoes
`limit` (equal to that effective limit) and `provider` into the final
result's filters. -/
theorem route_effective_limit_and_filter_echo (dl ml : Int)
    (strategy : String → Int → Provider → Except String UsersQueryResult)
    (payload : UsersNlQueryRequest) (r : UsersQueryResult)
    (h : strategy payload.query (min (payload.limit.getD dl) ml)
        payload.provider = Except.ok r) :
    ∃ final, routeQueryUsers dl ml strategy payload = Except.ok final ∧
      jGet final.filters "limit" =
        some (JValue.int (min (payload.limit.getD dl) ml)) ∧
      jGet final.filters "provider" =
        some (JValue.str (providerStr payload.provider)) := by
  unfold routeQueryUsers
  simp only []
  rw [h]
  refine ⟨_, rfl, ?_, ?_⟩
  · rw [jGet_jSet_ne _ _ _ _ (by decide)]
    exact jGet_jSet_self _ _ _
  · exact jGet_jSet_self _ _ _

/-- Witness for C9: caller limit 100 against ceiling 50, openrouter flag. -/
theorem route_effective_limit_and_filter_echo_witness :
    ∃ final, routeQueryUsers 20 50
        (fun _ l _ => Except.ok (resultFromText "hello" (some l)))
        { query := "q", limit := some 100, provider := Provider.openrouter } =
      Except.ok final ∧
      jGet final.filters "limit" = some (JValue.int 50) ∧
      jGet final.filters "provider" = some (JValue.str "openrouter") :=
  route_effective_limit_and_filter_echo 20 50
    (fun _ l _ => Except.ok (resultFromText "hello" (some l)))
    { query := "q", limit := some 100, provider := Provider.openrouter }
    (resultFromText "hello" (some 50)) rfl

/-- C5: `lookup_type=id` with `skip`/`limit` at their defaults (and no
other field supplied) fails validation; any non-`list` lookup_type with
non-default `skip`/`limit` fails validation; `lookup_type=list` with
non-default in-range `skip`/`limit` succeeds. -/
theorem lookup_validation_skip_limit_rules :
    (validateToolInput (JValue.str "id") JValue.null JValue.null JValue.null
      (JValue.bool false) (JValue.int 0) (JValue.int 20)).isOk = false ∧
    (∀ (lt : String) (uid em un : JValue) (ao : Bool) (sk li : Int)
      (inp : UsersQueryToolInput),
      (lt = "id" ∨ lt = "email" ∨ lt = "username") → (sk ≠ 0 ∨ li ≠ 20) →
      validateToolInput (JValue.str lt) uid em un (JValue.bool ao)
        (JValue.int sk) (JValue.int li) ≠ Except.ok inp) ∧
    (∀ (ao : Bool) (sk li : Int), 0 ≤ sk → 1 ≤ li → li ≤ 100 →
      (validateToolInput (JValue.str "list") JValue.null JValue.null JValue.null
        (JValue.bool ao) (JValue.int sk) (JValue.int li)).isOk = true) := by
  refine ⟨rfl, ?_, ?_⟩
  · intro lt uid em un ao sk li inp hlt hsl hv
    rcases hlt with h | h | h <;>
      subst h <;>
      simp only [validateToolInput, Bind.bind, Except.bind] at hv <;>
      iterate 25 (all_goals (first
        | split at hv
        | exact Except.noConfusion hv
        | (simp_all; done)
        | skip))
  · intro ao sk li h0 h1 h2
    simp [validateToolInput, Bind.bind, Except.bind, h0, h1, h2, Except.isOk,
      Except.toBool]

/-- Witness for C5: an email lookup with `skip=5` is rejected, and a list
request with `skip=5, limit=50` is accepted. -/
theorem lookup_validation_skip_limit_rules_witness :
    validateToolInput (JValue.str "email") JValue.null
        (JValue.str "x@y.com") JValue.null (JValue.bool false)
        (JValue.int 5) (JValue.int 20) ≠
      Except.ok (listInput none none none false 0 20) ∧
    (validateToolInput (JValue.str "list") JValue.null JValue.null JValue.null
      (JValue.bool false) (JValue.int 5) (JValue.int 50)).isOk = true :=
  ⟨lookup_validation_skip_limit_rules.2.1 "email" JValue.null
      (JValue.str "x@y.com") JValue.null false 5 20
      (listInput none none none false 0 20)
      (Or.inr (Or.inl rfl)) (Or.inl (by decide)),
   lookup_validation_skip_limit_rules.2.2 false 5 50 (by decide) (by decide)
     (by decide)⟩

/-- C6 counterexample: supplying an identifier field that does not belong
to the chosen lookup_type is NOT a validation error — `user_id=5` together
with `lookup_type=email` validates, and the Query Tool dispatches the
email lookup against the data store instead of returning
`clarification_needed`. -/
theorem extra_identifier_not_rejected :
    (validateToolInput (JValue.str "email") (JValue.int 5)
      (JValue.str "user@example.com") JValue.null (JValue.bool false)
      (JValue.int 0) (JValue.int 20)).isOk = true ∧
    (queryUsersTool collabFix (JValue.str "email") (JValue.int 5)
      (JValue.str "user@example.com") JValue.null JValue.null JValue.null
      JValue.null).intent = Intent.get_user_by_email ∧
    (queryUsersTool collabFix (JValue.str "email") (JValue.int 5)
      (JValue.str "user@example.com") JValue.null JValue.null JValue.null
      JValue.null).data = [userPublicOfUser userA] :=
  ⟨rfl, rfl, rfl⟩

/-- C6 amended: validation only requires the identifier matching the
lookup_type (plus default paging for non-list); extraneous identifier
fields are accepted and ignored, and dispatch is driven by lookup_type
alone, so the data store is still consulted. -/
theorem extra_identifier_ignored (c : Collab) (uidv : Int) (em un : String)
    (u : User) (h1 : 1 ≤ uidv) (h2 : isValidEmail em = true)
    (h3 : c.get_user_by_email em = Except.ok u) :
    (validateToolInput (JValue.str "email") (JValue.int uidv) (JValue.str em)
      (JValue.str un) (JValue.bool false) (JValue.int 0)
      (JValue.int 20)).isOk = true ∧
    queryUsersTool c (JValue.str "email") (JValue.int uidv) (JValue.str em)
        (JValue.str un) JValue.null JValue.null JValue.null =
      successResult Intent.get_user_by_email [u] [("email", JValue.str em)] := by
  have hv : validateToolInput (JValue.str "email") (JValue.int uidv)
      (JValue.str em) (JValue.str un) (JValue.bool false) (JValue.int 0)
      (JValue.int 20) =
      Except.ok { lookup_type := LookupType.email, user_id := some uidv,
                  email := some em, username := some un, active_only := false,
                  skip := 0, limit := 20 } := by
    simp [validateToolInput, h1, h2, Bind.bind, Except.bind]
  constructor
  · simp [hv, Except.isOk, Except.toBool]
  · unfold queryUsersTool
    simp only []
    rw [hv]
    simp only [dispatchTool]
    rw [h3]

/-- Witness for C6 amended: concrete extra `user_id` and `username` on an
email lookup that finds a user. -/
theorem extra_identifier_ignored_witness :
    (validateToolInput (JValue.str "email") (JValue.int 5)
      (JValue.str "test@example.com") (JValue.str "ghost") (JValue.bool false)
      (JValue.int 0) (JValue.int 20)).isOk = true ∧
    queryUsersTool collabFix (JValue.str "email") (JValue.int 5)
        (JValue.str "test@example.com") (JValue.str "ghost") JValue.null
        JValue.null JValue.null =
      successResult Intent.get_user_by_email [userA]
        [("email", JValue.str "test@example.com")] :=
  extra_identifier_ignored collabFix 5 "test@example.com" "ghost" userA
    (by decide) (by decide) rfl

/-- C8: the free-text fallback classifies case-insensitively — text
containing `out_of_scope`/`out of scope` yields intent `out_of_scope`, any
other text yields `clarification_needed` (there is no confident-answer
branch), the summary always equals the text; and an event stream carrying
only the free text `This is out of scope.` makes the google strategy
return `out_of_scope` with that summary. -/
theorem free_text_classification (text : String) (limit : Option Int) :
    ((strContainsSub (strLower text) "out_of_scope" ||
        strContainsSub (strLower text) "out of scope") = true →
      (resultFromText text limit).intent = Intent.out_of_scope ∧
        (resultFromText text limit).summary = text) ∧
    ((strContainsSub (strLower text) "out_of_scope" ||
        strContainsSub (strLower text) "out of scope") = false →
      (resultFromText text limit).intent = Intent.clarification_needed ∧
        (resultFromText text limit).summary = text) ∧
    queryUsersGoogle (some "k") none [outOfScopeEvent] none =
      Except.ok { intent := Intent.out_of_scope,
                  summary := "This is out of scope.", data := [],
                  filters := [], count := 0, error := none } := by
  refine ⟨?_, ?_, rfl⟩
  · intro h
    exact ⟨by simp [resultFromText, h], rfl⟩
  · intro h
    refine ⟨?_, rfl⟩
    simp only [resultFromText, h]
    simp [ite_self]

/-- Witness for C8: the scenario text classifies as out_of_scope, and a
text with no keyword classifies as clarification_needed. -/
theorem free_text_classification_witness :
    ((resultFromText "This is out of scope." none).intent =
        Intent.out_of_scope ∧
      (resultFromText "This is out of scope." none).summary =
        "This is out of scope.") ∧
    ((resultFromText "list all users please" (some 3)).intent =
        Intent.clarification_needed ∧
      (resultFromText "list all users please" (some 3)).summary =
        "list all users please") :=
  ⟨(free_text_classification "This is out of scope." none).1 rfl,
   (free_text_classification "list all users please" (some 3)).2.1 rfl⟩

/-- C7: the fenced-code-block extraction of `_parse_json_content` never
fires on an ordinary fenced block. The direct-parse path works (first
conjunct), but the raw-string pattern `` ```(?:json)?\\s*(\{.*?\})\\s*``` ``
demands a literal backslash, so the search misses the fenced JSON object
in `fencedContent`, `_parse_json_content` returns `None`, and the
openrouter strategy answers `clarification_needed` instead of executing
the extracted plan. -/
theorem fenced_extraction_never_fires :
    parseJsonContent fencedInner =
      some [("lookup_type", JValue.str "list")] ∧
    reSearchFenced (pyStrip fencedContent).toList = none ∧
    parseJsonContent fencedContent = none ∧
    queryUsersOpenrouter (some "k") none fencedResponse collabFix none =
      Except.ok (clarifResult "Could not parse OpenRouter response."
        "Expected JSON object in model output.") :=
  ⟨rfl, rfl, rfl, rfl⟩

/-- The plan builder raises only the content-not-a-string AttributeError;
every other failure it sees is converted to a structured result. -/
theorem buildPlan_error_only_attr (r : HttpResponse) (e : String)
    (h : buildOpenrouterPlan r = Except.error e) :
    e = "AttributeError: content is not a string" := by
  unfold buildOpenrouterPlan at h
  iterate 10 (all_goals (first
    | split at h
    | exact Except.noConfusion h
    | (injection h with h'; exact h'.symm)
    | skip))

/-- Keyword-splatting the plan into the tool raises only the two
`TypeError`s of Python call binding. -/
theorem callKw_error_only_typeerror (c : Collab)
    (plan : List (String × JValue)) (e : String)
    (h : callQueryUsersToolKw c plan = Except.error e) :
    e = "TypeError: unexpected keyword argument" ∨
    e = "TypeError: missing required argument lookup_type" := by
  unfold callQueryUsersToolKw at h
  split at h
  · exact Or.inl (Except.error.inj h).symm
  · split at h
    · exact Or.inr (Except.error.inj h).symm
    · exact Except.noConfusion h

/-- Exactly which exceptions escape the openrouter strategy. -/
theorem orStrategy_error_classes (sk ek : Option String) (r : HttpResponse)
    (c : Collab) (l : Option Int) (e : String)
    (h : queryUsersOpenrouter sk ek r c l = Except.error e) :
    ensureOpenrouterApiKey sk ek = Except.error e ∨
    e = "AttributeError: content is not a string" ∨
    e = "TypeError: unexpected keyword argument" ∨
    e = "TypeError: missing required argument lookup_type" := by
  unfold queryUsersOpenrouter at h
  split at h
  · left
    rw [← Except.error.inj h]
    assumption
  · split at h
    · right; left
      have he := Except.error.inj h
      have hb := buildPlan_error_only_attr r _ (by assumption)
      rw [← he]
      exact hb
    · exact Except.noConfusion h
    · exact Or.inr (Or.inr (callKw_error_only_typeerror c _ e h))

/-- Exactly which exceptions escape the google strategy. -/
theorem googleStrategy_error_classes (gk ge : Option String)
    (events : List Event) (l : Option Int) (e : String)
    (h : queryUsersGoogle gk ge events l = Except.error e) :
    ensureGoogleApiKey gk ge = Except.error e ∨
    ∃ d, (events.foldl stepEvent ("", none)).2 = some d ∧
      validateQueryResult (JValue.obj d) = Except.error e := by
  unfold queryUsersGoogle at h
  split at h
  · left
    rw [← Except.error.inj h]
    assumption
  · simp only [] at h
    iterate 8 (all_goals (first
      | split at h
      | exact Except.noConfusion h
      | skip))
    all_goals (right
               exact ⟨_, by assumption, by rw [← Except.error.inj h]; assumption⟩)

/-- C4 counterexample: with the openrouter credential present, a model
plan carrying an argument key outside the tool signature makes the
strategy raise an uncaught TypeError — so a missing credential is not the
only error class that propagates uncaught. -/
theorem openrouter_typeerror_escapes_with_credential :
    ensureOpenrouterApiKey (some "k") none = Except.ok "k" ∧
    queryUsersOpenrouter (some "k") none bogusPlanResponse collabFix (some 5) =
      Except.error "TypeError: unexpected keyword argument" :=
  ⟨rfl, rfl⟩

/-- C4 amended: a missing credential (for google, also the placeholder) is
raised before any network interaction in both strategies — the result does
not depend on the response or event stream. Transport, parsing, and
validation failures along the handled paths are converted to structured
results, but two further classes still escape uncaught: in the openrouter
strategy a non-string message content (AttributeError) or a plan whose
keys do not fit the tool signature (TypeError); in the google strategy a
tool payload that fails result validation. -/
theorem missing_credential_fatal_and_error_classes :
    (ensureGoogleApiKey (some "your-google-api-key-here") none =
      Except.error "GOOGLE_API_KEY is required for users NL query endpoint") ∧
    (∀ (gk ge : Option String) (e : String) (ev1 ev2 : List Event)
        (l1 l2 : Option Int),
      ensureGoogleApiKey gk ge = Except.error e →
      queryUsersGoogle gk ge ev1 l1 = Except.error e ∧
      queryUsersGoogle gk ge ev1 l1 = queryUsersGoogle gk ge ev2 l2) ∧
    (∀ (sk ek : Option String) (e : String) (r1 r2 : HttpResponse)
        (c1 c2 : Collab) (l1 l2 : Option Int),
      ensureOpenrouterApiKey sk ek = Except.error e →
      queryUsersOpenrouter sk ek r1 c1 l1 = Except.error e ∧
      queryUsersOpenrouter sk ek r1 c1 l1 = queryUsersOpenrouter sk ek r2 c2 l2) ∧
    (∀ (sk ek : Option String) (r : HttpResponse) (c : Collab)
        (l : Option Int) (e : String),
      queryUsersOpenrouter sk ek r c l = Except.error e →
      ensureOpenrouterApiKey sk ek = Except.error e ∨
      e = "AttributeError: content is not a string" ∨
      e = "TypeError: unexpected keyword argument" ∨
      e = "TypeError: missing required argument lookup_type") ∧
    (∀ (gk ge : Option String) (ev : List Event) (l : Option Int) (e : String),
      queryUsersGoogle gk ge ev l = Except.error e →
      ensureGoogleApiKey gk ge = Except.error e ∨
      ∃ d, (ev.foldl stepEvent ("", none)).2 = some d ∧
        validateQueryResult (JValue.obj d) = Except.error e) := by
  refine ⟨rfl, ?_, ?_, ?_, ?_⟩
  · intro gk ge e ev1 ev2 l1 l2 h
    exact ⟨by simp [queryUsersGoogle, h], by simp [queryUsersGoogle, h]⟩
  · intro sk ek e r1 r2 c1 c2 l1 l2 h
    exact ⟨by simp [queryUsersOpenrouter, h], by simp [queryUsersOpenrouter, h]⟩
  · exact orStrategy_error_classes
  · exact googleStrategy_error_classes

/-- Witness for C4 amended: both strategies fail fast on absent keys, with
results independent of the network data, and the concrete TypeError run is
classified by the characterization. -/
theorem missing_credential_fatal_and_error_classes_witness :
    (queryUsersGoogle none none [outOfScopeEvent] none =
      Except.error "GOOGLE_API_KEY is required for users NL query endpoint" ∧
      queryUsersGoogle none none [outOfScopeEvent] none =
        queryUsersGoogle none none [] (some 7)) ∧
    (queryUsersOpenrouter none none bogusPlanResponse collabFix (some 5) =
      Except.error "OPENROUTER_API_KEY is required when provider=openrouter" ∧
      queryUsersOpenrouter none none bogusPlanResponse collabFix (some 5) =
        queryUsersOpenrouter none none fencedResponse collabFailFix none) ∧
    (ensureOpenrouterApiKey (some "k") none =
        Except.error "TypeError: unexpected keyword argument" ∨
      "TypeError: unexpected keyword argument" =
        "AttributeError: content is not a string" ∨
      "TypeError: unexpected keyword argument" =
        "TypeError: unexpected keyword argument" ∨
      "TypeError: unexpected keyword argument" =
        "TypeError: missing required argument lookup_type") :=
  ⟨missing_credential_fatal_and_error_classes.2.1 none none _
      [outOfScopeEvent] [] none (some 7) rfl,
   missing_credential_fatal_and_error_classes.2.2.1 none none _
      bogusPlanResponse fencedResponse collabFix collabFailFix (some 5) none rfl,
   missing_credential_fatal_and_error_classes.2.2.2.1 (some "k") none
      bogusPlanResponse collabFix (some 5)
      "TypeError: unexpected keyword argument" rfl⟩

end NlQuery
